import Mathlib

/-!
Verification development for the pusher/push-notifications-go server SDK.

The Go code is shallowly embedded: Go strings become lists of bytes
(`GoString`), the untyped JSON payload map becomes an association list of
JSON values (`GoMap`), and each public operation becomes a total function
that returns the list of HTTP requests it issued together with its result.
The HTTP transport and the wall clock are passed in as explicit parameters,
so every definition is executable.
-/

set_option maxRecDepth 100000

/-- Go strings are byte sequences; we model them as lists of byte values.
Go reports `len(s)` in bytes, which is `List.length` here. -/
abbrev GoString := List Nat

/-- Byte sequence of an ASCII Lean string literal.  Every literal that the
source embeds in a message is pure ASCII, so the code points are the bytes. -/
def ascii (s : String) : GoString := s.toList.map Char.toNat

/-- Decimal rendering of a number, as the `%d` verb of `fmt.Sprintf` prints it. -/
def natBytes (n : Nat) : GoString := (Nat.toDigits 10 n).map Char.toNat

/-- The single-quote byte (39).  Messages of the source quote the user id with it. -/
def quoteByte : GoString := [39]

/-- A JSON value, as produced by `encoding/json`.  The caller payload
`map[string]interface{}` holds such values, which keeps every payload
serializable (the claims never exercise unserializable Go values). -/
inductive Json where
  | null
  | bool (b : Bool)
  | num (n : Int)
  | str (s : GoString)
  | arr (elems : List Json)
  | obj (fields : List (GoString × Json))

/-- The caller payload `map[string]interface{}`: an association list without
duplicate keys.  `mapInsert` models the Go statement `m[k] = v`. -/
abbrev GoMap := List (GoString × Json)

/-- Go map read `m[k]`. -/
def mapLookup (m : GoMap) (k : GoString) : Option Json :=
  match m with
  | [] => none
  | (k2, v) :: rest => if k2 = k then some v else mapLookup rest k

/-- Go map write `m[k] = v`: replaces the binding of `k` or appends it. -/
def mapInsert (m : GoMap) (k : GoString) (v : Json) : GoMap :=
  match m with
  | [] => [(k, v)]
  | (k2, v2) :: rest => if k2 = k then (k, v) :: rest else (k2, v2) :: mapInsert rest k v

/-- UTF-8 continuation byte (10xxxxxx). -/
def isCont (b : Nat) : Bool := 0x80 ≤ b && b ≤ 0xBF

/-- Allowed second byte of a three-byte UTF-8 sequence with leading byte `b`
(the `acceptRanges` table of Go package `unicode/utf8`: 0xE0 forbids overlong
forms, 0xED forbids surrogates). -/
def utf8Second3 (b c1 : Nat) : Bool :=
  if b = 0xE0 then 0xA0 ≤ c1 && c1 ≤ 0xBF
  else if b = 0xED then 0x80 ≤ c1 && c1 ≤ 0x9F
  else isCont c1

/-- Allowed second byte of a four-byte UTF-8 sequence with leading byte `b`
(0xF0 forbids overlong forms, 0xF4 caps code points at U+10FFFF). -/
def utf8Second4 (b c1 : Nat) : Bool :=
  if b = 0xF0 then 0x90 ≤ c1 && c1 ≤ 0xBF
  else if b = 0xF4 then 0x80 ≤ c1 && c1 ≤ 0x8F
  else isCont c1

/-- Go `utf8.ValidString`: the byte sequence is well-formed UTF-8 (RFC 3629,
no surrogates, no overlong forms, maximum U+10FFFF). -/
def utf8ValidString : GoString → Bool
  | [] => true
  | b :: rest =>
    if b ≤ 0x7F then utf8ValidString rest
    else if b < 0xC2 then false
    else if b ≤ 0xDF then
      match rest with
      | c1 :: rest2 => isCont c1 && utf8ValidString rest2
      | [] => false
    else if b ≤ 0xEF then
      match rest with
      | c1 :: c2 :: rest3 => utf8Second3 b c1 && isCont c2 && utf8ValidString rest3
      | _ => false
    else if b ≤ 0xF4 then
      match rest with
      | c1 :: c2 :: c3 :: rest4 =>
        utf8Second4 b c1 && isCont c2 && isCont c3 && utf8ValidString rest4
      | _ => false
    else false

/-- Go `utf8.RuneCountInString`: length of the string in runes.  A malformed
byte is consumed alone and counts as one replacement rune, exactly as the
Go decoder returns size 1 on malformed input. -/
def runeCount : GoString → Nat
  | [] => 0
  | b :: rest =>
    if b ≤ 0x7F then runeCount rest + 1
    else if b < 0xC2 then runeCount rest + 1
    else if b ≤ 0xDF then
      match rest with
      | c1 :: rest2 => if isCont c1 then runeCount rest2 + 1 else runeCount (c1 :: rest2) + 1
      | [] => 1
    else if b ≤ 0xEF then
      match rest with
      | c1 :: c2 :: rest3 =>
        if utf8Second3 b c1 && isCont c2 then runeCount rest3 + 1
        else runeCount (c1 :: c2 :: rest3) + 1
      | rest2 => runeCount rest2 + 1
    else if b ≤ 0xF4 then
      match rest with
      | c1 :: c2 :: c3 :: rest4 =>
        if utf8Second4 b c1 && isCont c2 && isCont c3 then runeCount rest4 + 1
        else runeCount (c1 :: c2 :: c3 :: rest4) + 1
      | rest2 => runeCount rest2 + 1
    else runeCount rest + 1

/-- Membership of one byte in the character class of the interest regex
`[a-zA-Z0-9_\-=@,.;]` (ASCII letters, digits, underscore 95, hyphen 45,
equals 61, at 64, comma 44, dot 46, semicolon 59). -/
def interestCharOk (b : Nat) : Bool :=
  (97 ≤ b && b ≤ 122) || (65 ≤ b && b ≤ 90) || (48 ≤ b && b ≤ 57) ||
    b = 95 || b = 45 || b = 61 || b = 64 || b = 44 || b = 46 || b = 59

/-- Go `interestValidationRegex.MatchString`, the regex being the anchored
`[a-zA-Z0-9_\-=@,.;]+`.  Every character of the class is ASCII, so a UTF-8
string matches exactly when it is non-empty and all its bytes are in the
class: a byte at or above 0x80 belongs to a multi-byte or malformed rune,
which is never in the class. -/
def interestValidationRegexMatch (s : GoString) : Bool :=
  !s.isEmpty && s.all interestCharOk

/-- Constant `maxUserIdLength` of the source. -/
def maxUserIdLength : Nat := 164

/-- Constant `maxNumUserIdsWhenPublishing` of the source. -/
def maxNumUserIdsWhenPublishing : Nat := 1000

/-- Constant `tokenTTL` of the source (24 hours), in Unix seconds. -/
def tokenTTLSeconds : Int := 24 * 60 * 60

/-- Modelled from the spec: the fixed library-identification string
`sdkVersion`.  Its defining file is not among the given sources; only the
header value depends on it and no claim inspects that value. -/
def sdkVersion : GoString := ascii "1.0.0"

/-- Message of the error returned for an empty interest list. -/
def msgNoInterests : GoString := ascii "No interests were supplied"

/-- Message of the error returned for more than 100 interests. -/
def msgTooManyInterests (n : Nat) : GoString :=
  ascii "Too many interests supplied (" ++ natBytes n ++
    ascii "): API only supports up to 100"

/-- Message of the error returned for an empty interest name. -/
def msgEmptyInterest : GoString := ascii "An empty interest name is not valid"

/-- Message of the error returned for an interest longer than 164 bytes. -/
def msgInterestTooLong (n : Nat) : GoString :=
  ascii "Interest length is " ++ natBytes n ++ ascii " which is over 164 characters"

/-- Message of the error returned for an interest failing the regex. -/
def msgInterestForbidden (interest : GoString) : GoString :=
  ascii "Interest `" ++ interest ++
    ascii "` contains an forbidden character: Allowed characters are: ASCII upper/lower-case letters, numbers or one of _-=@,.:"

/-- Message of the error returned for an empty user-id list. -/
def msgMustSupplyUser : GoString := ascii "Must supply at least one user id"

/-- Message of the error returned for more than 1000 user ids. -/
def msgTooManyUsers (n : Nat) : GoString :=
  ascii "Too many user ids supplied. API supports up to " ++
    natBytes maxNumUserIdsWhenPublishing ++ ascii ", got " ++ natBytes n

/-- Message of the error returned for an empty id inside a user-id list. -/
def msgEmptyUserIds : GoString := ascii "Empty user ids are not valid"

/-- Message of the error returned for an over-long id inside a user-id list
(note the source prints the limit 164 itself here, not 165). -/
def msgUserIdTooLongList (userId : GoString) (n : Nat) : GoString :=
  ascii "User Id (" ++ quoteByte ++ userId ++ quoteByte ++
    ascii ") length too long (expected fewer than " ++ natBytes maxUserIdLength ++
    ascii " characters, got " ++ natBytes n ++ ascii ")"

/-- Message of the error returned for a non-UTF-8 id inside a user-id list. -/
def msgInvalidUtf8 (i : Nat) : GoString :=
  ascii "User Id at index " ++ natBytes i ++ ascii " is not valid utf8"

/-- Message of the empty-user-id error of GenerateToken and DeleteUser. -/
def msgUserIdEmpty : GoString := ascii "User Id cannot be empty"

/-- Message of the over-long-user-id error of GenerateToken and DeleteUser
(these two print `maxUserIdLength+1`, unlike the list validator). -/
def msgUserIdTooLongSingle (userId : GoString) (n : Nat) : GoString :=
  ascii "User Id (" ++ quoteByte ++ userId ++ quoteByte ++
    ascii ") length too long (expected fewer than " ++ natBytes (maxUserIdLength + 1) ++
    ascii " characters, got " ++ natBytes n ++ ascii ")"

/-- Message of the non-UTF-8 error of DeleteUser. -/
def msgUserIdNotUtf8 : GoString := ascii "User Id must be encoded using utf8"

/-- Message of the wrapped network error of the publish path. -/
def msgPublishNetworkError : GoString :=
  ascii "Failed to publish notifications due to a network error"

/-- Message of the wrapped body-read error of the publish path. -/
def msgPublishReadError : GoString :=
  ascii "Failed to read publish notification response due to a network error"

/-- Message of the wrapped invalid-JSON error of the publish path. -/
def msgPublishInvalidJson : GoString :=
  ascii "Failed to read publish notification response due to invalid JSON"

/-- Message of the wrapped remote rejection of the publish path: `errors.Wrap`
formats the wrapping as message, colon, space, cause. -/
def msgPublishRejected (cause : GoString) : GoString :=
  ascii "Failed to publish notification: " ++ cause

/-- Message of the wrapped network error of the delete path. -/
def msgDeleteNetworkError : GoString :=
  ascii "Failed to delete user due to a network error"

/-- Message of the wrapped body-read error of the delete path. -/
def msgDeleteReadError : GoString :=
  ascii "Failed to read delete user response due to a network error"

/-- Message of the wrapped invalid-JSON error of the delete path. -/
def msgDeleteInvalidJson : GoString :=
  ascii "Failed to read delete user response due to invalid JSON"

/-- Message of the wrapped remote rejection of the delete path. -/
def msgDeleteRejected (cause : GoString) : GoString :=
  ascii "Failed to delete user: " ++ cause

/-- The checks the PublishToInterests loop applies to one interest, in the
order of the source: empty name, byte length over 164, regex.  Returns the
message of the first failing check. -/
def interestViolation (i : GoString) : Option GoString :=
  if i.length = 0 then some msgEmptyInterest
  else if 164 < i.length then some (msgInterestTooLong i.length)
  else if interestValidationRegexMatch i then none
  else some (msgInterestForbidden i)

/-- The `for _, interest := range interests` loop of PublishToInterests:
returns the first violation, in order. -/
def validateInterestsLoop : List GoString → Option GoString
  | [] => none
  | i :: rest =>
    if i.length = 0 then some msgEmptyInterest
    else if 164 < i.length then some (msgInterestTooLong i.length)
    else if interestValidationRegexMatch i then validateInterestsLoop rest
    else some (msgInterestForbidden i)

/-- The interest validation prelude of PublishToInterests: empty list, list
of more than 100 interests, then the per-interest loop. -/
def validateInterests (interests : List GoString) : Option GoString :=
  if interests.length = 0 then some msgNoInterests
  else if 100 < interests.length then some (msgTooManyInterests interests.length)
  else validateInterestsLoop interests

/-- The checks the PublishToUsers loop applies to the id at index `i`, in the
order of the source: empty id, byte length over `maxUserIdLength`, UTF-8
validity. -/
def userIdViolation (i : Nat) (u : GoString) : Option GoString :=
  if u = [] then some msgEmptyUserIds
  else if maxUserIdLength < u.length then some (msgUserIdTooLongList u u.length)
  else if utf8ValidString u then none
  else some (msgInvalidUtf8 i)

/-- The `for i, userId := range users` loop of PublishToUsers. -/
def validateUsersLoop : Nat → List GoString → Option GoString
  | _, [] => none
  | i, u :: rest =>
    if u = [] then some msgEmptyUserIds
    else if maxUserIdLength < u.length then some (msgUserIdTooLongList u u.length)
    else if utf8ValidString u then validateUsersLoop (i + 1) rest
    else some (msgInvalidUtf8 i)

/-- The user-id validation of PublishToUsers: empty list, list of more than
`maxNumUserIdsWhenPublishing` ids, then the per-id loop from index 0. -/
def validateUsers (users : List GoString) : Option GoString :=
  if users.length = 0 then some msgMustSupplyUser
  else if maxNumUserIdsWhenPublishing < users.length then
    some (msgTooManyUsers users.length)
  else validateUsersLoop 0 users

/-- The `pushNotifications` client state: instance id, secret key and base
endpoint (the HTTP client itself is passed to each operation as an explicit
transport function). -/
structure Client where
  instanceId : GoString
  secretKey : GoString
  baseEndpoint : GoString

/-- The default base endpoint `https://{instanceId}.pushnotifications.pusher.com`. -/
def defaultBaseEndpoint (instanceId : GoString) : GoString :=
  ascii "https://" ++ instanceId ++ ascii ".pushnotifications.pusher.com"

/-- The constructor `New` without options: fails on an empty instance id or
secret key, otherwise fills in the default base endpoint. -/
def newClient (instanceId secretKey : GoString) : Option Client :=
  if instanceId = [] then none
  else if secretKey = [] then none
  else some { instanceId := instanceId, secretKey := secretKey,
              baseEndpoint := defaultBaseEndpoint instanceId }

/-- An HTTP request as the source builds it: method, URL, the three headers,
and an optional JSON body (the delete request carries none). -/
structure HttpRequest where
  method : GoString
  url : GoString
  headers : List (GoString × GoString)
  body : Option Json

/-- An HTTP response as the operations consume it: the status code and the
body.  The body is the parse of the received bytes: `none` stands for bytes
that are not syntactically valid JSON. -/
structure HttpResponse where
  statusCode : Nat
  body : Option Json

/-- Outcome of one HTTP round trip: a network failure of `httpClient.Do`, a
failure reading the response body, or a received response. -/
inductive TransportResult where
  | netErr
  | readErr
  | resp (r : HttpResponse)

/-- The HTTP transport, as an oracle mapping each issued request to its
outcome. -/
abbrev Transport := HttpRequest → TransportResult

/-- The three headers every request of the source carries. -/
def requestHeaders (pn : Client) : List (GoString × GoString) :=
  [(ascii "Authorization", ascii "Bearer " ++ pn.secretKey),
   (ascii "Content-Type", ascii "application/json"),
   (ascii "X-Pusher-Library", ascii "pusher-push-notifications-go " ++ sdkVersion)]

/-- The JSON object key `publishId`. -/
def keyPublishId : GoString := ascii "publishId"

/-- The JSON object key `error`. -/
def keyError : GoString := ascii "error"

/-- The JSON object key `description`. -/
def keyDescription : GoString := ascii "description"

/-- The reserved payload key `interests`. -/
def keyInterests : GoString := ascii "interests"

/-- The reserved payload key `users`. -/
def keyUsers : GoString := ascii "users"

/-- Decoding of one string-typed struct field by `encoding/json`: scan the
object fields in order, a later binding of the key overwrites an earlier
one, a JSON null leaves the current value, and any other non-string value
is a decode error (`none`).  Key matching is written exact here; the Go
fallback of case-insensitive matching never fires for the all-lower-case
keys this API uses. -/
def decodeStrField (key : GoString) : List (GoString × Json) → GoString → Option GoString
  | [], cur => some cur
  | (k, v) :: rest, cur =>
    if k = key then
      match v with
      | Json.str s => decodeStrField key rest s
      | Json.null => decodeStrField key rest cur
      | _ => none
    else decodeStrField key rest cur

/-- Go `json.Unmarshal(bytes, &publishResponse{})` on parsed JSON: a JSON
null leaves the zero value, an object decodes the `publishId` field (zero
value: the empty string), any other JSON value is a type error. -/
def unmarshalPublishResponse : Json → Option GoString
  | Json.null => some []
  | Json.obj fields => decodeStrField keyPublishId fields []
  | _ => none

/-- Go `json.Unmarshal(bytes, &errorResponse{})` on parsed JSON: decodes the
`error` and `description` string fields. -/
def unmarshalErrorResponse : Json → Option (GoString × GoString) :=
  fun j =>
    match j with
    | Json.null => some ([], [])
    | Json.obj fields =>
      match decodeStrField keyError fields [] with
      | none => none
      | some e =>
        match decodeStrField keyDescription fields [] with
        | none => none
        | some d => some (e, d)
    | _ => none

/-- The shared `publishToAPI` helper: issues one POST request and classifies
the outcome.  Status 200 parses the body as a publish response; every other
status parses it as an error response and wraps `error: description`. -/
def publishToAPI (pn : Client) (t : Transport) (url : GoString) (body : Json) :
    List HttpRequest × Except GoString GoString :=
  let req : HttpRequest :=
    { method := ascii "POST", url := url, headers := requestHeaders pn, body := some body }
  (req :: [],
    match t req with
    | TransportResult.netErr => Except.error msgPublishNetworkError
    | TransportResult.readErr => Except.error msgPublishReadError
    | TransportResult.resp resp =>
      if resp.statusCode = 200 then
        match resp.body with
        | none => Except.error msgPublishInvalidJson
        | some j =>
          match unmarshalPublishResponse j with
          | none => Except.error msgPublishInvalidJson
          | some pubId => Except.ok pubId
      else
        match resp.body with
        | none => Except.error msgPublishInvalidJson
        | some j =>
          match unmarshalErrorResponse j with
          | none => Except.error msgPublishInvalidJson
          | some ed => Except.error (msgPublishRejected (ed.1 ++ ascii ": " ++ ed.2)))

/-- URL of the publish-to-interests endpoint. -/
def publishesUrl (pn : Client) : GoString :=
  pn.baseEndpoint ++ ascii "/publish_api/v1/instances/" ++ pn.instanceId ++ ascii "/publishes"

/-- URL of the publish-to-users endpoint. -/
def publishUsersUrl (pn : Client) : GoString :=
  pn.baseEndpoint ++ ascii "/publish_api/v1/instances/" ++ pn.instanceId ++
    ascii "/publishes/users"

/-- `PublishToInterests`: validate, write the validated list into the caller
map under the key `interests` (the source mutates the caller map in place,
see its TODO remark, so the first component of the result is the state of
the caller map after the call), then post the map as the body.  Marshalling
a map of `Json` values always succeeds, so the marshal-error branch of the
source is unreachable in this model. -/
def publishToInterests (pn : Client) (t : Transport) (interests : List GoString)
    (request : GoMap) : GoMap × List HttpRequest × Except GoString GoString :=
  match validateInterests interests with
  | some e => (request, [], Except.error e)
  | none =>
    let request2 := mapInsert request keyInterests (Json.arr (interests.map Json.str))
    (request2, publishToAPI pn t (publishesUrl pn) (Json.obj request2))

/-- `PublishToUsers`: same shape with the user-id validator, the key `users`
and the users endpoint. -/
def publishToUsers (pn : Client) (t : Transport) (users : List GoString)
    (request : GoMap) : GoMap × List HttpRequest × Except GoString GoString :=
  match validateUsers users with
  | some e => (request, [], Except.error e)
  | none =>
    let request2 := mapInsert request keyUsers (Json.arr (users.map Json.str))
    (request2, publishToAPI pn t (publishUsersUrl pn) (Json.obj request2))

/-- The deprecated `Publish`: the source body is a single call to
`PublishToInterests` with the same arguments. -/
def publish (pn : Client) (t : Transport) (interests : List GoString)
    (request : GoMap) : GoMap × List HttpRequest × Except GoString GoString :=
  publishToInterests pn t interests request

/-- The claim set of the token built by `GenerateToken`. -/
structure JwtClaims where
  sub : GoString
  iss : GoString
  exp : Int

/-- A compact JWT signed with HS256.  The library call
`jwt.NewWithClaims(HS256, claims).SignedString(key)` produces a string fully
determined by the claims and the MAC key, and verifying it with a key
succeeds exactly when the key is the signing key; the token is modelled by
that determining data. -/
structure SignedJwt where
  claims : JwtClaims
  signingKey : GoString

/-- The issuer string `https://{instanceId}.pushnotifications.pusher.com`. -/
def issuerOf (pn : Client) : GoString :=
  ascii "https://" ++ pn.instanceId ++ ascii ".pushnotifications.pusher.com"

/-- The token `GenerateToken` signs at Unix time `now` for `userId`. -/
def signedUserToken (pn : Client) (now : Int) (userId : GoString) : SignedJwt :=
  { claims := { sub := userId, iss := issuerOf pn, exp := now + tokenTTLSeconds },
    signingKey := pn.secretKey }

/-- `GenerateToken` at Unix time `now`: rejects an empty or over-long user
id, otherwise signs the claim set.  HS256 signing of a byte-slice key never
fails, so the signing-error branch of the source is unreachable.  The first
component is the list of HTTP requests issued, which is always empty: the
operation takes no transport. -/
def generateToken (pn : Client) (now : Int) (userId : GoString) :
    List HttpRequest × Except GoString SignedJwt :=
  if userId.length = 0 then ([], Except.error msgUserIdEmpty)
  else if maxUserIdLength < userId.length then
    ([], Except.error (msgUserIdTooLongSingle userId userId.length))
  else ([], Except.ok (signedUserToken pn now userId))

/-- Verification of a modelled JWT with a key (`jwt.Parse` with a key
function returning `key`): succeeds with the claim set exactly when the key
matches the signing key. -/
def verifyJwt (key : GoString) (tok : SignedJwt) : Option JwtClaims :=
  if tok.signingKey = key then some tok.claims else none

/-- One hexadecimal digit, upper case, as `net/url` prints escapes. -/
def hexDigit (d : Nat) : Nat := if d < 10 then 48 + d else 55 + d

/-- ASCII letter or digit. -/
def isAlphaNumByte (b : Nat) : Bool :=
  (97 ≤ b && b ≤ 122) || (65 ≤ b && b ≤ 90) || (48 ≤ b && b ≤ 57)

/-- Escaping of one byte by Go `url.PathEscape`: letters, digits, the marks
45 95 46 126 and the sub-delimiters 36 38 43 58 61 64 stay; every other
byte becomes a percent escape. -/
def pathEscapeByte (b : Nat) : GoString :=
  if isAlphaNumByte b then [b]
  else if b = 45 || b = 95 || b = 46 || b = 126 then [b]
  else if b = 36 || b = 38 || b = 43 || b = 58 || b = 61 || b = 64 then [b]
  else [37, hexDigit (b / 16), hexDigit (b % 16)]

/-- Go `url.PathEscape` over the whole byte string. -/
def pathEscape (s : GoString) : GoString := (s.map pathEscapeByte).flatten

/-- URL of the delete-user endpoint. -/
def deleteUserUrl (pn : Client) (userId : GoString) : GoString :=
  pn.baseEndpoint ++ ascii "/customer_api/v1/instances/" ++ pn.instanceId ++
    ascii "/users/" ++ pathEscape userId

/-- `DeleteUser`: rejects an empty, over-long or non-UTF-8 user id, then
issues one DELETE request with no body.  Status 200 is success without
reading the body; any other status parses the error response as the publish
path does. -/
def deleteUser (pn : Client) (t : Transport) (userId : GoString) :
    List HttpRequest × Except GoString Unit :=
  if userId.length = 0 then ([], Except.error msgUserIdEmpty)
  else if maxUserIdLength < userId.length then
    ([], Except.error (msgUserIdTooLongSingle userId userId.length))
  else if utf8ValidString userId = false then ([], Except.error msgUserIdNotUtf8)
  else
    let req : HttpRequest :=
      { method := ascii "DELETE", url := deleteUserUrl pn userId,
        headers := requestHeaders pn, body := none }
    (req :: [],
      match t req with
      | TransportResult.netErr => Except.error msgDeleteNetworkError
      | TransportResult.readErr => Except.error msgDeleteReadError
      | TransportResult.resp resp =>
        if resp.statusCode = 200 then Except.ok ()
        else
          match resp.body with
          | none => Except.error msgDeleteInvalidJson
          | some j =>
            match unmarshalErrorResponse j with
            | none => Except.error msgDeleteInvalidJson
            | some ed => Except.error (msgDeleteRejected (ed.1 ++ ascii ": " ++ ed.2)))

/-- Substring occurrence: `needle` occurs contiguously inside `haystack`. -/
def OccursIn (needle haystack : GoString) : Prop :=
  ∃ s t, s ++ needle ++ t = haystack

/-- The client of the test suite: instance `i-123`, secret `k-456`. -/
def testClient : Client :=
  { instanceId := ascii "i-123", secretKey := ascii "k-456",
    baseEndpoint := defaultBaseEndpoint (ascii "i-123") }

theorem occursIn_append_left (x : GoString) {y t : GoString} (h : OccursIn y t) :
    OccursIn y (x ++ t) := by
  obtain ⟨s, u, rfl⟩ := h
  exact ⟨x ++ s, u, by simp [List.append_assoc]⟩

theorem occursIn_append_right (x : GoString) {y s : GoString} (h : OccursIn y s) :
    OccursIn y (s ++ x) := by
  obtain ⟨a, b, rfl⟩ := h
  exact ⟨a, b ++ x, by simp [List.append_assoc]⟩

theorem validateInterestsLoop_cons (i : GoString) (rest : List GoString) :
    validateInterestsLoop (i :: rest) =
      (interestViolation i).elim (validateInterestsLoop rest) some := by
  simp only [validateInterestsLoop, interestViolation]
  split_ifs <;> rfl

theorem validateInterestsLoop_append (pre rest : List GoString)
    (h : ∀ i ∈ pre, interestViolation i = none) :
    validateInterestsLoop (pre ++ rest) = validateInterestsLoop rest := by
  induction pre with
  | nil => rfl
  | cons a pre ih =>
    rw [List.cons_append, validateInterestsLoop_cons, h a (by simp)]
    exact ih (fun i hi => h i (by simp [hi]))

theorem validateInterests_first_violation (pre : List GoString) (bad : GoString)
    (post : List GoString) (m : GoString) (hlen : (pre ++ bad :: post).length ≤ 100)
    (hpre : ∀ i ∈ pre, interestViolation i = none)
    (hbad : interestViolation bad = some m) :
    validateInterests (pre ++ bad :: post) = some m := by
  unfold validateInterests
  rw [if_neg (by simp), if_neg (by omega), validateInterestsLoop_append pre _ hpre,
    validateInterestsLoop_cons, hbad]
  rfl

theorem validateInterests_all_ok (interests : List GoString) (hne : interests ≠ [])
    (hlen : interests.length ≤ 100) (h : ∀ i ∈ interests, interestViolation i = none) :
    validateInterests interests = none := by
  unfold validateInterests
  rw [if_neg (by simpa using hne), if_neg (by omega), ← List.append_nil interests,
    validateInterestsLoop_append interests [] h]
  rfl

/-- Claim C1: interest validation in PublishToInterests is fail-fast in the
specified order: an empty list fails with the no-interests message; a list of
more than 100 interests fails with the too-many message, which carries the
actual count and the limit 100; otherwise the interests are checked in order
and the first violation wins, where one interest fails for emptiness, then
for byte length over 164 (message carries the actual length), then for the
charset regex (message carries the offending interest); a list of 1 to 100
interests passing all checks validates successfully. -/
theorem interest_list_validation_fail_fast :
    (∀ interests : List GoString, interests.length = 0 →
        validateInterests interests = some msgNoInterests)
  ∧ (∀ interests : List GoString, 100 < interests.length →
        validateInterests interests = some (msgTooManyInterests interests.length)
        ∧ OccursIn (natBytes interests.length) (msgTooManyInterests interests.length)
        ∧ OccursIn (ascii "100") (msgTooManyInterests interests.length))
  ∧ (∀ (pre : List GoString) (bad : GoString) (post : List GoString) (m : GoString),
        (pre ++ bad :: post).length ≤ 100 →
        (∀ i ∈ pre, interestViolation i = none) →
        interestViolation bad = some m →
        validateInterests (pre ++ bad :: post) = some m)
  ∧ (∀ i : GoString, i.length = 0 → interestViolation i = some msgEmptyInterest)
  ∧ (∀ i : GoString, 164 < i.length →
        interestViolation i = some (msgInterestTooLong i.length)
        ∧ OccursIn (natBytes i.length) (msgInterestTooLong i.length))
  ∧ (∀ i : GoString, i.length ≠ 0 → i.length ≤ 164 →
        interestValidationRegexMatch i = false →
        interestViolation i = some (msgInterestForbidden i)
        ∧ OccursIn i (msgInterestForbidden i))
  ∧ (∀ interests : List GoString, interests ≠ [] → interests.length ≤ 100 →
        (∀ i ∈ interests, interestViolation i = none) →
        validateInterests interests = none) := by
  refine ⟨?_, ?_, validateInterests_first_violation, ?_, ?_, ?_, validateInterests_all_ok⟩
  · intro interests h
    unfold validateInterests
    rw [if_pos h]
  · intro interests h
    refine ⟨?_, ?_, ?_⟩
    · unfold validateInterests
      rw [if_neg (by omega), if_pos h]
    · exact ⟨ascii "Too many interests supplied (",
        ascii "): API only supports up to 100", rfl⟩
    · exact occursIn_append_left (ascii "Too many interests supplied (")
        (occursIn_append_left (natBytes interests.length)
          ⟨ascii "): API only supports up to ", [], by decide⟩)
  · intro i h
    unfold interestViolation
    rw [if_pos h]
  · intro i h1
    refine ⟨?_, ⟨ascii "Interest length is ", ascii " which is over 164 characters", rfl⟩⟩
    unfold interestViolation
    rw [if_neg (by omega), if_pos h1]
  · intro i h0 h1 h2
    constructor
    · unfold interestViolation
      rw [if_neg h0, if_neg (by omega), h2]
      rfl
    · exact ⟨ascii "Interest `",
        ascii "` contains an forbidden character: Allowed characters are: ASCII upper/lower-case letters, numbers or one of _-=@,.:",
        rfl⟩

/-- Witness for C1: each implication of the theorem instantiated at a
concrete input from the test suite. -/
theorem interest_list_validation_fail_fast_witness :
    validateInterests [] = some msgNoInterests
  ∧ validateInterests (List.replicate 101 (ascii "a")) = some (msgTooManyInterests 101)
  ∧ OccursIn (ascii "100") (msgTooManyInterests 101)
  ∧ validateInterests [ascii "ok", [], ascii "x"] = some msgEmptyInterest
  ∧ interestViolation [] = some msgEmptyInterest
  ∧ interestViolation (List.replicate 165 97) = some (msgInterestTooLong 165)
  ∧ interestViolation (ascii "#not<>|ok") = some (msgInterestForbidden (ascii "#not<>|ok"))
  ∧ OccursIn (ascii "#not<>|ok") (msgInterestForbidden (ascii "#not<>|ok"))
  ∧ validateInterests [ascii "hell-o"] = none := by
  refine ⟨interest_list_validation_fail_fast.1 [] rfl,
    (interest_list_validation_fail_fast.2.1 (List.replicate 101 (ascii "a")) (by decide)).1,
    (interest_list_validation_fail_fast.2.1 (List.replicate 101 (ascii "a")) (by decide)).2.2,
    interest_list_validation_fail_fast.2.2.1 [ascii "ok"] [] [ascii "x"] msgEmptyInterest
      (by decide) (by decide) (by decide),
    interest_list_validation_fail_fast.2.2.2.1 [] rfl,
    (interest_list_validation_fail_fast.2.2.2.2.1 (List.replicate 165 97) (by decide)).1,
    (interest_list_validation_fail_fast.2.2.2.2.2.1 (ascii "#not<>|ok") (by decide) (by decide)
      (by decide)).1,
    (interest_list_validation_fail_fast.2.2.2.2.2.1 (ascii "#not<>|ok") (by decide) (by decide)
      (by decide)).2,
    interest_list_validation_fail_fast.2.2.2.2.2.2 [ascii "hell-o"] (by decide) (by decide)
      (by decide)⟩

theorem userIdViolation_index_irrelevant (i j : Nat) (u : GoString)
    (h : userIdViolation i u = none) : userIdViolation j u = none := by
  unfold userIdViolation at h ⊢
  split_ifs at h ⊢
  simp_all

theorem validateUsersLoop_cons (k : Nat) (u : GoString) (rest : List GoString) :
    validateUsersLoop k (u :: rest) =
      (userIdViolation k u).elim (validateUsersLoop (k + 1) rest) some := by
  simp only [validateUsersLoop, userIdViolation]
  split_ifs <;> rfl

theorem validateUsersLoop_append (pre : List GoString) (k : Nat) (rest : List GoString)
    (h : ∀ u ∈ pre, userIdViolation 0 u = none) :
    validateUsersLoop k (pre ++ rest) = validateUsersLoop (k + pre.length) rest := by
  induction pre generalizing k with
  | nil => rfl
  | cons a pre ih =>
    rw [List.cons_append, validateUsersLoop_cons,
      userIdViolation_index_irrelevant 0 k a (h a (by simp))]
    have := ih (k + 1) (fun u hu => h u (by simp [hu]))
    rw [show k + (a :: pre).length = k + 1 + pre.length by simp; omega]
    exact this

theorem validateUsers_first_violation (pre : List GoString) (bad : GoString)
    (post : List GoString) (m : GoString) (hlen : (pre ++ bad :: post).length ≤ 1000)
    (hpre : ∀ u ∈ pre, userIdViolation 0 u = none)
    (hbad : userIdViolation pre.length bad = some m) :
    validateUsers (pre ++ bad :: post) = some m := by
  unfold validateUsers
  rw [if_neg (by simp), if_neg (by simp only [maxNumUserIdsWhenPublishing]; omega),
    validateUsersLoop_append pre 0 _ hpre, validateUsersLoop_cons, Nat.zero_add, hbad]
  rfl

/-- Claim C2: user-id list validation in PublishToUsers is fail-fast in the
specified order: an empty list fails; a list of more than 1000 ids fails
with a message carrying both the limit 1000 and the actual count; otherwise
the ids are checked by index and the first violation wins, where an id fails
for emptiness, then for byte length over 164 (message carries the id, the
limit and the actual length), then for not being valid UTF-8 (message
carries the offending index). -/
theorem user_list_validation_fail_fast :
    (∀ users : List GoString, users.length = 0 →
        validateUsers users = some msgMustSupplyUser)
  ∧ (∀ users : List GoString, 1000 < users.length →
        validateUsers users = some (msgTooManyUsers users.length)
        ∧ OccursIn (ascii "1000") (msgTooManyUsers users.length)
        ∧ OccursIn (natBytes users.length) (msgTooManyUsers users.length))
  ∧ (∀ (pre : List GoString) (bad : GoString) (post : List GoString) (m : GoString),
        (pre ++ bad :: post).length ≤ 1000 →
        (∀ u ∈ pre, userIdViolation 0 u = none) →
        userIdViolation pre.length bad = some m →
        validateUsers (pre ++ bad :: post) = some m)
  ∧ (∀ (i : Nat), userIdViolation i [] = some msgEmptyUserIds)
  ∧ (∀ (u : GoString) (i : Nat), 164 < u.length →
        userIdViolation i u = some (msgUserIdTooLongList u u.length)
        ∧ OccursIn u (msgUserIdTooLongList u u.length)
        ∧ OccursIn (ascii "164") (msgUserIdTooLongList u u.length)
        ∧ OccursIn (natBytes u.length) (msgUserIdTooLongList u u.length))
  ∧ (∀ (u : GoString) (i : Nat), u ≠ [] → u.length ≤ 164 → utf8ValidString u = false →
        userIdViolation i u = some (msgInvalidUtf8 i)
        ∧ OccursIn (natBytes i) (msgInvalidUtf8 i)) := by
  refine ⟨?_, ?_, validateUsers_first_violation, ?_, ?_, ?_⟩
  · intro users h
    unfold validateUsers
    rw [if_pos h]
  · intro users h
    refine ⟨?_, ?_, ?_⟩
    · unfold validateUsers
      rw [if_neg (by omega), if_pos (by simp only [maxNumUserIdsWhenPublishing]; omega)]
    · exact ⟨ascii "Too many user ids supplied. API supports up to ",
        ascii ", got " ++ natBytes users.length, rfl⟩
    · exact occursIn_append_left (ascii "Too many user ids supplied. API supports up to ")
        (occursIn_append_left (natBytes maxNumUserIdsWhenPublishing)
          (occursIn_append_left (ascii ", got ") ⟨[], [], by simp⟩))
  · intro i
    unfold userIdViolation
    rw [if_pos rfl]
  · intro u i h1
    have hne : u ≠ [] := by intro h; subst h; simp at h1
    refine ⟨?_, ?_, ?_, ?_⟩
    · unfold userIdViolation
      rw [if_neg hne, if_pos (by simp only [maxUserIdLength]; omega)]
    · exact occursIn_append_right (ascii ")")
        (occursIn_append_right (natBytes u.length)
          (occursIn_append_right (ascii " characters, got ")
            (occursIn_append_right (natBytes maxUserIdLength)
              (occursIn_append_right (ascii ") length too long (expected fewer than ")
                (occursIn_append_right quoteByte
                  ⟨ascii "User Id (" ++ quoteByte, [], by simp⟩)))))
    · exact occursIn_append_right (ascii ")")
        (occursIn_append_right (natBytes u.length)
          (occursIn_append_right (ascii " characters, got ")
            ⟨ascii "User Id (" ++ quoteByte ++ u ++ quoteByte ++
              ascii ") length too long (expected fewer than ", [], by simp; decide⟩))
    · exact occursIn_append_right (ascii ")")
        ⟨ascii "User Id (" ++ quoteByte ++ u ++ quoteByte ++
          ascii ") length too long (expected fewer than " ++ natBytes maxUserIdLength ++
          ascii " characters, got ", [], by simp⟩
  · intro u i hne hlen hutf
    refine ⟨?_, ⟨ascii "User Id at index ", ascii " is not valid utf8", rfl⟩⟩
    unfold userIdViolation
    rw [if_neg hne, if_neg (by simp only [maxUserIdLength]; omega), hutf]
    rfl

/-- Witness for C2: each implication of the theorem instantiated at a
concrete input from the test suite. -/
theorem user_list_validation_fail_fast_witness :
    validateUsers [] = some msgMustSupplyUser
  ∧ validateUsers (List.replicate 1001 (ascii "a")) = some (msgTooManyUsers 1001)
  ∧ OccursIn (ascii "1000") (msgTooManyUsers 1001)
  ∧ OccursIn (natBytes 1001) (msgTooManyUsers 1001)
  ∧ validateUsers [ascii "a", ascii "b", [192], ascii "d"] = some (msgInvalidUtf8 2)
  ∧ userIdViolation 0 [] = some msgEmptyUserIds
  ∧ userIdViolation 2 (List.replicate 165 104)
      = some (msgUserIdTooLongList (List.replicate 165 104) 165)
  ∧ OccursIn (ascii "164") (msgUserIdTooLongList (List.replicate 165 104) 165)
  ∧ userIdViolation 2 [192] = some (msgInvalidUtf8 2)
  ∧ OccursIn (natBytes 2) (msgInvalidUtf8 2) := by
  refine ⟨user_list_validation_fail_fast.1 [] rfl,
    (user_list_validation_fail_fast.2.1 (List.replicate 1001 (ascii "a")) (by decide)).1,
    (user_list_validation_fail_fast.2.1 (List.replicate 1001 (ascii "a")) (by decide)).2.1,
    (user_list_validation_fail_fast.2.1 (List.replicate 1001 (ascii "a")) (by decide)).2.2,
    user_list_validation_fail_fast.2.2.1 [ascii "a", ascii "b"] [192] [ascii "d"]
      (msgInvalidUtf8 2) (by decide) (by decide) (by decide),
    user_list_validation_fail_fast.2.2.2.1 0,
    (user_list_validation_fail_fast.2.2.2.2.1 (List.replicate 165 104) 2 (by decide)).1,
    (user_list_validation_fail_fast.2.2.2.2.1 (List.replicate 165 104) 2 (by decide)).2.2.1,
    (user_list_validation_fail_fast.2.2.2.2.2 [192] 2 (by decide) (by decide) (by decide)).1,
    (user_list_validation_fail_fast.2.2.2.2.2 [192] 2 (by decide) (by decide) (by decide)).2⟩

/-- Claim C3: classification of publish responses.  A received status 200
whose body unmarshals as a publish response yields that publish id with no
error, and a 200 with a body that does not parse yields the invalid-JSON
error; any other status whose body unmarshals as an error response fails
with a message that carries `error: description`, and any other status with
a body that does not parse yields the invalid-JSON error. -/
theorem publish_response_classification :
    (∀ (pn : Client) (url : GoString) (body j : Json) (s : GoString),
        unmarshalPublishResponse j = some s →
        (publishToAPI pn (fun _ => TransportResult.resp (HttpResponse.mk 200 (some j)))
            url body).2 = Except.ok s)
  ∧ (∀ (pn : Client) (url : GoString) (body : Json),
        (publishToAPI pn (fun _ => TransportResult.resp (HttpResponse.mk 200 none))
            url body).2 = Except.error msgPublishInvalidJson)
  ∧ (∀ (pn : Client) (url : GoString) (body j : Json),
        unmarshalPublishResponse j = none →
        (publishToAPI pn (fun _ => TransportResult.resp (HttpResponse.mk 200 (some j)))
            url body).2 = Except.error msgPublishInvalidJson)
  ∧ (∀ (pn : Client) (url : GoString) (body j : Json) (status : Nat) (e d : GoString),
        status ≠ 200 → unmarshalErrorResponse j = some (e, d) →
        (publishToAPI pn (fun _ => TransportResult.resp (HttpResponse.mk status (some j)))
            url body).2 = Except.error (msgPublishRejected (e ++ ascii ": " ++ d))
        ∧ OccursIn (e ++ ascii ": " ++ d) (msgPublishRejected (e ++ ascii ": " ++ d)))
  ∧ (∀ (pn : Client) (url : GoString) (body : Json) (status : Nat), status ≠ 200 →
        (publishToAPI pn (fun _ => TransportResult.resp (HttpResponse.mk status none))
            url body).2 = Except.error msgPublishInvalidJson)
  ∧ (∀ (pn : Client) (url : GoString) (body j : Json) (status : Nat), status ≠ 200 →
        unmarshalErrorResponse j = none →
        (publishToAPI pn (fun _ => TransportResult.resp (HttpResponse.mk status (some j)))
            url body).2 = Except.error msgPublishInvalidJson) := by
  refine ⟨?_, ?_, ?_, ?_, ?_, ?_⟩
  · intro pn url body j s h
    simp [publishToAPI, h]
  · intro pn url body
    simp [publishToAPI]
  · intro pn url body j h
    simp [publishToAPI, h]
  · intro pn url body j status e d hs h
    refine ⟨by simp [publishToAPI, hs, h],
      ⟨ascii "Failed to publish notification: ", [], by simp [msgPublishRejected, List.append_assoc]⟩⟩
  · intro pn url body status hs
    simp [publishToAPI, hs]
  · intro pn url body j status hs h
    simp [publishToAPI, hs, h]

/-- Witness for C3: each implication of the theorem instantiated at the
concrete responses of the test suite (status 200 with publish id `pub-123`,
status 400 with error `123` and description `why`, malformed bodies). -/
theorem publish_response_classification_witness :
    (publishToAPI testClient
        (fun _ => TransportResult.resp (HttpResponse.mk 200
            (some (Json.obj [(keyPublishId, Json.str (ascii "pub-123"))]))))
        (ascii "u") (Json.obj [])).2 = Except.ok (ascii "pub-123")
  ∧ (publishToAPI testClient
        (fun _ => TransportResult.resp (HttpResponse.mk 200 none))
        (ascii "u") (Json.obj [])).2 = Except.error msgPublishInvalidJson
  ∧ (publishToAPI testClient
        (fun _ => TransportResult.resp (HttpResponse.mk 200 (some (Json.num 5))))
        (ascii "u") (Json.obj [])).2 = Except.error msgPublishInvalidJson
  ∧ (publishToAPI testClient
        (fun _ => TransportResult.resp (HttpResponse.mk 400
            (some (Json.obj [(keyError, Json.str (ascii "123")),
                             (keyDescription, Json.str (ascii "why"))]))))
        (ascii "u") (Json.obj [])).2
      = Except.error (msgPublishRejected (ascii "123" ++ ascii ": " ++ ascii "why"))
  ∧ OccursIn (ascii "123" ++ ascii ": " ++ ascii "why")
      (msgPublishRejected (ascii "123" ++ ascii ": " ++ ascii "why"))
  ∧ (publishToAPI testClient
        (fun _ => TransportResult.resp (HttpResponse.mk 400 none))
        (ascii "u") (Json.obj [])).2 = Except.error msgPublishInvalidJson
  ∧ (publishToAPI testClient
        (fun _ => TransportResult.resp (HttpResponse.mk 400 (some (Json.obj [(keyError, Json.num 1)]))))
        (ascii "u") (Json.obj [])).2 = Except.error msgPublishInvalidJson := by
  refine ⟨publish_response_classification.1 testClient (ascii "u") (Json.obj [])
      (Json.obj [(keyPublishId, Json.str (ascii "pub-123"))]) (ascii "pub-123") (by decide),
    publish_response_classification.2.1 testClient (ascii "u") (Json.obj []),
    publish_response_classification.2.2.1 testClient (ascii "u") (Json.obj [])
      (Json.num 5) (by decide),
    (publish_response_classification.2.2.2.1 testClient (ascii "u") (Json.obj [])
      (Json.obj [(keyError, Json.str (ascii "123")), (keyDescription, Json.str (ascii "why"))])
      400 (ascii "123") (ascii "why") (by decide) (by decide)).1,
    (publish_response_classification.2.2.2.1 testClient (ascii "u") (Json.obj [])
      (Json.obj [(keyError, Json.str (ascii "123")), (keyDescription, Json.str (ascii "why"))])
      400 (ascii "123") (ascii "why") (by decide) (by decide)).2,
    publish_response_classification.2.2.2.2.1 testClient (ascii "u") (Json.obj []) 400
      (by decide),
    publish_response_classification.2.2.2.2.2 testClient (ascii "u") (Json.obj [])
      (Json.obj [(keyError, Json.num 1)]) 400 (by decide) (by decide)⟩

/-- Claim C4: for every non-empty user id of at most 164 bytes,
GenerateToken succeeds without issuing any HTTP request and returns the
token signed with the secret key, whose claims are the user id as subject,
the instance issuer URL, and an expiry of issuance time plus 24 hours,
hence strictly after the issuance time; verifying with the same secret
yields those claims. -/
theorem generate_token_claims :
    ∀ (pn : Client) (now : Int) (userId : GoString), userId ≠ [] → userId.length ≤ 164 →
      generateToken pn now userId = ([], Except.ok (signedUserToken pn now userId))
      ∧ (signedUserToken pn now userId).signingKey = pn.secretKey
      ∧ verifyJwt pn.secretKey (signedUserToken pn now userId)
          = some (signedUserToken pn now userId).claims
      ∧ (signedUserToken pn now userId).claims.sub = userId
      ∧ (signedUserToken pn now userId).claims.iss = issuerOf pn
      ∧ (signedUserToken pn now userId).claims.exp = now + tokenTTLSeconds
      ∧ now < (signedUserToken pn now userId).claims.exp := by
  intro pn now userId hne hlen
  refine ⟨?_, rfl, ?_, rfl, rfl, rfl, ?_⟩
  · unfold generateToken
    rw [if_neg (by simpa using hne), if_neg (by simp only [maxUserIdLength]; omega)]
  · unfold verifyJwt
    simp [signedUserToken]
  · show now < now + tokenTTLSeconds
    unfold tokenTTLSeconds
    omega

/-- Witness for C4: the token of the test suite, user `u-123` under secret
`k-456` and instance `i-123`. -/
theorem generate_token_claims_witness :
    generateToken testClient 1700000000 (ascii "u-123")
      = ([], Except.ok (signedUserToken testClient 1700000000 (ascii "u-123")))
    ∧ verifyJwt (ascii "k-456") (signedUserToken testClient 1700000000 (ascii "u-123"))
      = some { sub := ascii "u-123",
               iss := ascii "https://i-123.pushnotifications.pusher.com",
               exp := 1700000000 + tokenTTLSeconds }
    ∧ (1700000000 : Int) < (signedUserToken testClient 1700000000 (ascii "u-123")).claims.exp := by
  obtain ⟨h1, _, h3, _, _, _, h7⟩ :=
    generate_token_claims testClient 1700000000 (ascii "u-123") (by decide) (by decide)
  exact ⟨h1, h3, h7⟩

/-- Counterexample for claim C5: the byte 192 alone is a non-empty user id
of one byte that is not valid UTF-8, yet GenerateToken accepts it and signs
a token for it — the source checks only emptiness and length there, not the
encoding. -/
theorem generate_token_accepts_invalid_utf8 :
    generateToken testClient 0 [192]
      = ([], Except.ok (SignedJwt.mk
          (JwtClaims.mk [192] (ascii "https://i-123.pushnotifications.pusher.com") 86400)
          (ascii "k-456")))
    ∧ utf8ValidString [192] = false
    ∧ ([192] : GoString).length = 1 :=
  ⟨rfl, rfl, rfl⟩

/-- Claim C5 amended: DeleteUser applies all three checks to the single user
id — empty, byte length over 164, UTF-8 validity — while GenerateToken
applies only the first two and accepts every non-empty id of at most 164
bytes, valid UTF-8 or not. -/
theorem single_user_id_validation_amended :
    (∀ (pn : Client) (t : Transport) (userId : GoString), userId.length = 0 →
        deleteUser pn t userId = ([], Except.error msgUserIdEmpty))
  ∧ (∀ (pn : Client) (t : Transport) (userId : GoString), 164 < userId.length →
        deleteUser pn t userId
          = ([], Except.error (msgUserIdTooLongSingle userId userId.length)))
  ∧ (∀ (pn : Client) (t : Transport) (userId : GoString), userId.length ≠ 0 →
        userId.length ≤ 164 → utf8ValidString userId = false →
        deleteUser pn t userId = ([], Except.error msgUserIdNotUtf8))
  ∧ (∀ (pn : Client) (now : Int) (userId : GoString), userId.length = 0 →
        generateToken pn now userId = ([], Except.error msgUserIdEmpty))
  ∧ (∀ (pn : Client) (now : Int) (userId : GoString), 164 < userId.length →
        generateToken pn now userId
          = ([], Except.error (msgUserIdTooLongSingle userId userId.length)))
  ∧ (∀ (pn : Client) (now : Int) (userId : GoString), userId.length ≠ 0 →
        userId.length ≤ 164 →
        generateToken pn now userId = ([], Except.ok (signedUserToken pn now userId))) := by
  refine ⟨?_, ?_, ?_, ?_, ?_, ?_⟩
  · intro pn t userId h
    unfold deleteUser
    rw [if_pos h]
  · intro pn t userId h
    unfold deleteUser
    rw [if_neg (by omega), if_pos (by simp only [maxUserIdLength]; omega)]
  · intro pn t userId h0 h1 h2
    unfold deleteUser
    rw [if_neg h0, if_neg (by simp only [maxUserIdLength]; omega), if_pos h2]
  · intro pn now userId h
    unfold generateToken
    rw [if_pos h]
  · intro pn now userId h
    unfold generateToken
    rw [if_neg (by omega), if_pos (by simp only [maxUserIdLength]; omega)]
  · intro pn now userId h0 h1
    unfold generateToken
    rw [if_neg h0, if_neg (by simp only [maxUserIdLength]; omega)]

/-- Witness for the amended C5: each implication instantiated at a concrete
user id — the empty id, a 165-byte id, the non-UTF-8 byte 192 (rejected by
DeleteUser, accepted by GenerateToken), and the id of the test suite. -/
theorem single_user_id_validation_amended_witness :
    deleteUser testClient (fun _ => TransportResult.netErr) []
      = ([], Except.error msgUserIdEmpty)
  ∧ deleteUser testClient (fun _ => TransportResult.netErr) (List.replicate 165 97)
      = ([], Except.error (msgUserIdTooLongSingle (List.replicate 165 97) 165))
  ∧ deleteUser testClient (fun _ => TransportResult.netErr) [192]
      = ([], Except.error msgUserIdNotUtf8)
  ∧ generateToken testClient 0 [] = ([], Except.error msgUserIdEmpty)
  ∧ generateToken testClient 0 (List.replicate 165 97)
      = ([], Except.error (msgUserIdTooLongSingle (List.replicate 165 97) 165))
  ∧ generateToken testClient 0 (ascii "u-123")
      = ([], Except.ok (signedUserToken testClient 0 (ascii "u-123"))) := by
  refine ⟨single_user_id_validation_amended.1 testClient _ [] rfl,
    single_user_id_validation_amended.2.1 testClient _ (List.replicate 165 97) (by decide),
    single_user_id_validation_amended.2.2.1 testClient _ [192] (by decide) (by decide)
      (by decide),
    single_user_id_validation_amended.2.2.2.1 testClient 0 [] rfl,
    single_user_id_validation_amended.2.2.2.2.1 testClient 0 (List.replicate 165 97)
      (by decide),
    single_user_id_validation_amended.2.2.2.2.2 testClient 0 (ascii "u-123") (by decide)
      (by decide)⟩

/-- Claim C6 at its failing input: an HTTP 200 response whose valid JSON
body carries no publish id (or an empty one) is accepted by the publish
operations, which then return the empty string as the publish id with no
error — against the non-emptiness promised by the interface documentation
of the source and by the spec. -/
theorem publish_accepts_empty_publish_id :
    (publishToInterests testClient
        (fun _ => TransportResult.resp (HttpResponse.mk 200 (some (Json.obj []))))
        [ascii "hello"] []).2.2 = Except.ok []
    ∧ (publishToUsers testClient
        (fun _ => TransportResult.resp
          (HttpResponse.mk 200 (some (Json.obj [(keyPublishId, Json.str [])]))))
        [ascii "user-1"] []).2.2 = Except.ok []
    ∧ ([] : GoString).length = 0 :=
  ⟨rfl, rfl, rfl⟩

/-- Counterexample for claim C7: publishing the interest `hello` with an
initially empty caller payload map leaves the caller map changed after the
call — the source writes the reserved key into the caller map in place. -/
theorem publish_mutates_caller_payload :
    (publishToInterests testClient (fun _ => TransportResult.netErr) [ascii "hello"]
        ([] : GoMap)).1 ≠ ([] : GoMap) := by
  intro h
  have h2 : (publishToInterests testClient (fun _ => TransportResult.netErr) [ascii "hello"]
      ([] : GoMap)).1 = [(keyInterests, Json.arr [Json.str (ascii "hello")])] := rfl
  exact List.cons_ne_nil _ _ (h2.symm.trans h)

theorem mapLookup_mapInsert_ne (m : GoMap) (k : GoString) (v : Json) (k2 : GoString)
    (h : k2 ≠ k) : mapLookup (mapInsert m k v) k2 = mapLookup m k2 := by
  induction m with
  | nil => simp [mapInsert, mapLookup, Ne.symm h]
  | cons a rest ih =>
    obtain ⟨ka, va⟩ := a
    by_cases hk : ka = k
    · subst hk
      simp [mapInsert, mapLookup, Ne.symm h]
    · simp [mapInsert, mapLookup, hk, ih]

theorem mapLookup_mapInsert_eq (m : GoMap) (k : GoString) (v : Json) :
    mapLookup (mapInsert m k v) k = some v := by
  induction m with
  | nil => simp [mapInsert, mapLookup]
  | cons a rest ih =>
    obtain ⟨ka, va⟩ := a
    by_cases hk : ka = k
    · subst hk
      simp [mapInsert, mapLookup]
    · simp [mapInsert, mapLookup, hk, ih]

/-- Claim C7 amended: the merge of the validated identifier list into the
payload is `mapInsert`, a pure function from the payload and the list to the
outgoing body — but the source applies it to the caller map in place, so
after a validated call the caller map equals that merge (not its old value);
every key other than the reserved one is unchanged, the reserved key holds
the identifier list, and a call that fails validation leaves the caller map
untouched. -/
theorem payload_reserved_key_injection :
    (∀ (pn : Client) (t : Transport) (interests : List GoString) (request : GoMap),
        validateInterests interests = none →
        (publishToInterests pn t interests request).1
          = mapInsert request keyInterests (Json.arr (interests.map Json.str)))
  ∧ (∀ (pn : Client) (t : Transport) (users : List GoString) (request : GoMap),
        validateUsers users = none →
        (publishToUsers pn t users request).1
          = mapInsert request keyUsers (Json.arr (users.map Json.str)))
  ∧ (∀ (request : GoMap) (k : GoString) (v : Json) (k2 : GoString), k2 ≠ k →
        mapLookup (mapInsert request k v) k2 = mapLookup request k2)
  ∧ (∀ (request : GoMap) (k : GoString) (v : Json),
        mapLookup (mapInsert request k v) k = some v)
  ∧ (∀ (pn : Client) (t : Transport) (interests : List GoString) (request : GoMap)
        (e : GoString), validateInterests interests = some e →
        (publishToInterests pn t interests request).1 = request)
  ∧ (∀ (pn : Client) (t : Transport) (users : List GoString) (request : GoMap)
        (e : GoString), validateUsers users = some e →
        (publishToUsers pn t users request).1 = request) := by
  refine ⟨?_, ?_, mapLookup_mapInsert_ne, mapLookup_mapInsert_eq, ?_, ?_⟩
  · intro pn t interests request h
    simp [publishToInterests, h]
  · intro pn t users request h
    simp [publishToUsers, h]
  · intro pn t interests request e h
    simp [publishToInterests, h]
  · intro pn t users request e h
    simp [publishToUsers, h]

/-- Witness for the amended C7: the payload of the test suite is an empty
map; after publishing `hello` the caller map carries exactly the reserved
binding, a foreign key still reads as absent, and a failed validation leaves
the map empty. -/
theorem payload_reserved_key_injection_witness :
    (publishToInterests testClient (fun _ => TransportResult.netErr) [ascii "hello"]
        ([] : GoMap)).1
      = mapInsert [] keyInterests (Json.arr [Json.str (ascii "hello")])
  ∧ (publishToUsers testClient (fun _ => TransportResult.netErr) [ascii "user-1"]
        ([] : GoMap)).1
      = mapInsert [] keyUsers (Json.arr [Json.str (ascii "user-1")])
  ∧ mapLookup (mapInsert [] keyInterests (Json.arr [Json.str (ascii "hello")])) (ascii "fcm")
      = mapLookup ([] : GoMap) (ascii "fcm")
  ∧ mapLookup (mapInsert [] keyInterests (Json.arr [Json.str (ascii "hello")])) keyInterests
      = some (Json.arr [Json.str (ascii "hello")])
  ∧ (publishToInterests testClient (fun _ => TransportResult.netErr) [] ([] : GoMap)).1
      = ([] : GoMap)
  ∧ (publishToUsers testClient (fun _ => TransportResult.netErr) [] ([] : GoMap)).1
      = ([] : GoMap) := by
  refine ⟨payload_reserved_key_injection.1 testClient _ [ascii "hello"] [] (by decide),
    payload_reserved_key_injection.2.1 testClient _ [ascii "user-1"] [] (by decide),
    payload_reserved_key_injection.2.2.1 [] keyInterests (Json.arr [Json.str (ascii "hello")])
      (ascii "fcm") (by decide),
    payload_reserved_key_injection.2.2.2.1 [] keyInterests
      (Json.arr [Json.str (ascii "hello")]),
    payload_reserved_key_injection.2.2.2.2.1 testClient _ [] [] msgNoInterests rfl,
    payload_reserved_key_injection.2.2.2.2.2 testClient _ [] [] msgMustSupplyUser rfl⟩

/-- Claim C8: whenever the input of an operation fails validation, the
operation returns the validation error with the caller map untouched and an
empty list of issued HTTP requests, whatever the transport would have
answered — so no request reaches the network and no observable state
changes. -/
theorem validation_precedes_io :
    (∀ (pn : Client) (t : Transport) (interests : List GoString) (request : GoMap)
        (e : GoString), validateInterests interests = some e →
        publishToInterests pn t interests request = (request, [], Except.error e))
  ∧ (∀ (pn : Client) (t : Transport) (users : List GoString) (request : GoMap)
        (e : GoString), validateUsers users = some e →
        publishToUsers pn t users request = (request, [], Except.error e))
  ∧ (∀ (pn : Client) (t : Transport) (userId : GoString),
        userId.length = 0 ∨ 164 < userId.length ∨ utf8ValidString userId = false →
        (deleteUser pn t userId).1 = [] ∧ (deleteUser pn t userId).2.isOk = false)
  ∧ (∀ (pn : Client) (now : Int) (userId : GoString),
        userId.length = 0 ∨ 164 < userId.length →
        (generateToken pn now userId).1 = [] ∧ (generateToken pn now userId).2.isOk = false) := by
  refine ⟨?_, ?_, ?_, ?_⟩
  · intro pn t interests request e h
    simp [publishToInterests, h]
  · intro pn t users request e h
    simp [publishToUsers, h]
  · intro pn t userId h
    unfold deleteUser
    by_cases h0 : userId.length = 0
    · rw [if_pos h0]
      exact ⟨rfl, rfl⟩
    · rw [if_neg h0]
      by_cases h1 : maxUserIdLength < userId.length
      · rw [if_pos h1]
        exact ⟨rfl, rfl⟩
      · rw [if_neg h1]
        have h2 : utf8ValidString userId = false := by
          rcases h with h | h | h
          · exact absurd h h0
          · exact absurd (show maxUserIdLength < userId.length from h) h1
          · exact h
        rw [if_pos h2]
        exact ⟨rfl, rfl⟩
  · intro pn now userId h
    unfold generateToken
    by_cases h0 : userId.length = 0
    · rw [if_pos h0]
      exact ⟨rfl, rfl⟩
    · rw [if_neg h0]
      have h1 : maxUserIdLength < userId.length := by
        rcases h with h | h
        · exact absurd h h0
        · exact h
      rw [if_pos h1]
      exact ⟨rfl, rfl⟩

/-- Witness for C8: each operation at a concretely invalid input — the
empty interest list, the empty user list, the non-UTF-8 id for DeleteUser
and the empty id for GenerateToken — with a transport that would answer
success, to show the answer is never consulted. -/
theorem validation_precedes_io_witness :
    publishToInterests testClient
        (fun _ => TransportResult.resp (HttpResponse.mk 200
          (some (Json.obj [(keyPublishId, Json.str (ascii "pub-123"))]))))
        [] ([] : GoMap)
      = ([], [], Except.error msgNoInterests)
  ∧ publishToUsers testClient
        (fun _ => TransportResult.resp (HttpResponse.mk 200
          (some (Json.obj [(keyPublishId, Json.str (ascii "pub-123"))]))))
        [] ([] : GoMap)
      = ([], [], Except.error msgMustSupplyUser)
  ∧ (deleteUser testClient
        (fun _ => TransportResult.resp (HttpResponse.mk 200 none)) [192]).1 = []
  ∧ (deleteUser testClient
        (fun _ => TransportResult.resp (HttpResponse.mk 200 none)) [192]).2.isOk = false
  ∧ (generateToken testClient 0 []).1 = []
  ∧ (generateToken testClient 0 []).2.isOk = false := by
  refine ⟨validation_precedes_io.1 testClient _ [] [] msgNoInterests rfl,
    validation_precedes_io.2.1 testClient _ [] [] msgMustSupplyUser rfl,
    (validation_precedes_io.2.2.1 testClient _ [192] (by decide)).1,
    (validation_precedes_io.2.2.1 testClient _ [192] (by decide)).2,
    (validation_precedes_io.2.2.2 testClient 0 [] (Or.inl rfl)).1,
    (validation_precedes_io.2.2.2 testClient 0 [] (Or.inl rfl)).2⟩

/-- Claim C9: the deprecated Publish is extensionally equal to
PublishToInterests — the source body of Publish is a single delegation, so
the two operations agree on every client, transport, interest list and
payload. -/
theorem publish_alias_of_publish_to_interests :
    ∀ (pn : Client) (t : Transport) (interests : List GoString) (request : GoMap),
      publish pn t interests request = publishToInterests pn t interests request :=
  fun _ _ _ _ => rfl

/-- Claim C10: the length limits are measured in UTF-8 bytes, not runes: a
string of more than 164 bytes is rejected by the interest and the user-id
length checks even when its rune count is at most 164, and a string of at
most 164 bytes is never rejected by a length check — the only failures left
are the empty, charset and encoding ones. -/
theorem length_limits_measured_in_bytes :
    (∀ s : GoString, runeCount s ≤ 164 → 164 < s.length →
        validateInterests [s] = some (msgInterestTooLong s.length)
        ∧ validateUsers [s] = some (msgUserIdTooLongList s s.length))
  ∧ (∀ s : GoString, s.length ≤ 164 →
        (validateInterests [s] = none ∨ validateInterests [s] = some msgEmptyInterest
          ∨ validateInterests [s] = some (msgInterestForbidden s))
        ∧ (validateUsers [s] = none ∨ validateUsers [s] = some msgEmptyUserIds
          ∨ validateUsers [s] = some (msgInvalidUtf8 0))) := by
  constructor
  · intro s hr hl
    constructor
    · unfold validateInterests
      rw [if_neg (by simp), if_neg (by simp)]
      simp only [validateInterestsLoop]
      rw [if_neg (by omega), if_pos hl]
    · unfold validateUsers
      rw [if_neg (by simp), if_neg (by simp [maxNumUserIdsWhenPublishing])]
      simp only [validateUsersLoop]
      rw [if_neg (show s ≠ [] by intro he; subst he; simp at hl),
        if_pos (show maxUserIdLength < s.length by simp only [maxUserIdLength]; omega)]
  · intro s hl
    constructor
    · by_cases h0 : s.length = 0
      · rw [List.length_eq_zero] at h0
        subst h0
        right
        left
        rfl
      · by_cases h2 : interestValidationRegexMatch s
        · left
          refine validateInterests_all_ok [s] (by simp) (by simp) ?_
          intro i hi
          rw [List.mem_singleton] at hi
          subst hi
          unfold interestViolation
          rw [if_neg h0, if_neg (by omega), if_pos h2]
        · right
          right
          unfold validateInterests
          rw [if_neg (by simp [h0]), if_neg (by simp)]
          simp only [validateInterestsLoop]
          rw [if_neg h0, if_neg (by omega), if_neg h2]
    · by_cases h0 : s = []
      · subst h0
        right
        left
        rfl
      · by_cases h2 : utf8ValidString s
        · left
          unfold validateUsers
          rw [if_neg (by simp), if_neg (by simp [maxNumUserIdsWhenPublishing])]
          simp only [validateUsersLoop]
          rw [if_neg h0, if_neg (by simp only [maxUserIdLength]; omega), if_pos h2]
        · right
          right
          unfold validateUsers
          rw [if_neg (by simp), if_neg (by simp [maxNumUserIdsWhenPublishing])]
          simp only [validateUsersLoop]
          rw [if_neg h0, if_neg (by simp only [maxUserIdLength]; omega),
            if_neg h2]

/-- Witness for C10: 83 copies of the two-byte rune U+00A9 form a string of
166 bytes but only 83 runes — over the byte limit, far under it in runes —
and the two-byte string `ok` passes both length checks. -/
theorem length_limits_measured_in_bytes_witness :
    runeCount (List.flatten (List.replicate 83 [194, 169])) = 83
  ∧ (List.flatten (List.replicate 83 [194, 169])).length = 166
  ∧ validateInterests [List.flatten (List.replicate 83 [194, 169])]
      = some (msgInterestTooLong 166)
  ∧ validateUsers [List.flatten (List.replicate 83 [194, 169])]
      = some (msgUserIdTooLongList (List.flatten (List.replicate 83 [194, 169])) 166)
  ∧ validateInterests [ascii "ok"] = none
  ∧ validateUsers [ascii "ok"] = none := by
  obtain ⟨ha, hb⟩ := length_limits_measured_in_bytes.1
    (List.flatten (List.replicate 83 [194, 169])) (by decide) (by decide)
  obtain ⟨hc, hd⟩ := length_limits_measured_in_bytes.2 (ascii "ok") (by decide)
  refine ⟨by decide, by decide, ha, hb, ?_, ?_⟩
  · rcases hc with h | h | h
    · exact h
    · exact absurd h (by decide)
    · exact absurd h (by decide)
  · rcases hd with h | h | h
    · exact h
    · exact absurd h (by decide)
    · exact absurd h (by decide)
